import Mathlib

/-!
Shallow embedding of the RAGent ingestion-and-retrieval pipeline.

Source files embedded:
* `src/data_loader.py` — `embed_texts`, `embed_query` (Gemini embedding calls
  are modelled by an oracle `EmbedService`).
* `src/vector_database.py` — `QdrantStorage.upsert`, `QdrantStorage.search`
  (the external Qdrant client is modelled by `clientUpsert` / `clientSearch`,
  following its documented contract: upsert-by-id replaces records with the
  same id, search returns records ranked by descending similarity truncated
  to `top_k`; the similarity score itself is an abstract parameter `Score`).
* `src/main.py` — `upsert_embeddings`, `search_contexts`, and the
  input-validation prefix of `ragent_query_pdf_ai` (the downstream Gemini
  answer-generation step is an external collaborator and is elided).

Python floats are modelled as rationals; raising an exception is modelled by
`Except.error` (in the stateful operations an `Except.error` result means the
exception was raised before any write, so the store state is unchanged).
-/

namespace RAGent

/-- Embedding vectors (Python `list[float]`), modelled over ℚ. -/
abbrev Vec := List ℚ

/-- Qdrant point payload as built by `upsert_embeddings` in `main.py`:
`{"source": source_id, "text": chunk}`.  A missing key is identified with
`""` because `search` reads keys with `payload.get(key, "")`. -/
structure Payload where
  source : String
  text : String
deriving DecidableEq, Repr

/-- A stored Qdrant point `(id, vector, payload)`. -/
structure QPoint where
  id : String
  vector : Vec
  payload : Payload
deriving DecidableEq, Repr

deriving instance DecidableEq for Except

/-- `EMBED_DIM = 768` from `data_loader.py`. -/
def EMBED_DIM : Nat := 768

/-- The external Gemini embedding call `genai.embed_content`:
given a `task_type` and the content, returns a vector or fails. -/
def EmbedService := String → String → Except String Vec

/-- Python truthiness test `t and t.strip()` is false exactly when every
character of `t` is whitespace (in particular when `t` is empty). -/
def isBlank (s : String) : Bool := s.data.all (fun c => c.isWhitespace)

/-- The truncation step of `embed_texts` (`data_loader.py` lines 97-100):
`if len(text) > 10000: text = text[:10000]`. -/
def truncateText (s : String) : String :=
  if s.data.length > 10000 then String.mk (s.data.take 10000) else s

/-- One iteration of the embedding loop of `embed_texts`
(`data_loader.py` lines 95-116): truncate, call the service with
`task_type="retrieval_document"`, validate the dimension. -/
def embedOne (svc : EmbedService) (text : String) : Except String Vec :=
  match svc "retrieval_document" (truncateText text) with
  | .error e => .error e
  | .ok embedding =>
    if embedding.length ≠ EMBED_DIM then
      .error "Expected embedding dimension EMBED_DIM"
    else
      .ok embedding

/-- The `for i, text in enumerate(valid_texts)` loop of `embed_texts`:
any single failure aborts the whole batch. -/
def embedLoop (svc : EmbedService) : List String → Except String (List Vec)
  | [] => .ok []
  | t :: ts =>
    match embedOne svc t with
    | .error e => .error e
    | .ok v =>
      match embedLoop svc ts with
      | .error e => .error e
      | .ok vs => .ok (v :: vs)

/-- `data_loader.embed_texts` (lines 79-131): reject an empty list, filter
out blank texts (`valid_texts = [t for t in texts if t and t.strip()]`),
reject if nothing is left, then embed each remaining text in order. -/
def embed_texts (svc : EmbedService) (texts : List String) :
    Except String (List Vec) :=
  if texts.isEmpty then .error "texts list cannot be empty"
  else
    let valid_texts := texts.filter (fun t => !(isBlank t))
    if valid_texts.isEmpty then .error "No valid non-empty texts to embed"
    else embedLoop svc valid_texts

/-- `data_loader.embed_query` (lines 134-157): reject a blank query, call the
service with `task_type="retrieval_query"` on the query as given (no
truncation), validate the dimension. -/
def embed_query (svc : EmbedService) (query : String) : Except String Vec :=
  if isBlank query then .error "Query cannot be empty"
  else
    match svc "retrieval_query" query with
    | .error e => .error e
    | .ok embedding =>
      if embedding.length ≠ EMBED_DIM then
        .error "Expected embedding dimension EMBED_DIM"
      else
        .ok embedding

/-- Qdrant upsert-by-id semantics for a single point: replace the records
holding this id if present, append otherwise (external collaborator contract:
"Upsert by id overwrites an existing record with the same id"). -/
def putPoint (pts : List QPoint) (p : QPoint) : List QPoint :=
  if pts.any (fun q => q.id == p.id) then
    pts.map (fun q => if q.id == p.id then p else q)
  else pts ++ [p]

/-- The external `client.upsert(collection_name, points)` call. -/
def clientUpsert (pts : List QPoint) (ps : List QPoint) : List QPoint :=
  ps.foldl putPoint pts

/-- Abstract similarity score used by the external index to rank records
(models Qdrant's cosine ranking; `Score qv v` is the similarity between the
query vector `qv` and a stored vector `v`). -/
def Score := Vec → Vec → ℚ

/-- "Record `a` ranks at least as high as record `b` for query `qv`":
descending order of similarity score. -/
def descBy (score : Score) (qv : Vec) (a b : QPoint) : Prop :=
  score qv b.vector ≤ score qv a.vector

instance (score : Score) (qv : Vec) : DecidableRel (descBy score qv) :=
  fun a b => inferInstanceAs (Decidable (score qv b.vector ≤ score qv a.vector))

instance (score : Score) (qv : Vec) : IsTotal QPoint (descBy score qv) :=
  ⟨fun a b => le_total (score qv b.vector) (score qv a.vector)⟩

instance (score : Score) (qv : Vec) : IsTrans QPoint (descBy score qv) :=
  ⟨fun _ _ _ hab hbc => le_trans hbc hab⟩

/-- The external `client.search(collection_name, query_vector, limit)` call:
records ranked by descending score, truncated to `limit`. -/
def clientSearch (score : Score) (pts : List QPoint) (qv : Vec)
    (limit : Nat) : List QPoint :=
  (pts.insertionSort (descBy score qv)).take limit

/-- The Qdrant store: collection dimension plus the persisted points.
The collection name, url and timeout take their defaults and play no role. -/
structure QdrantStorage where
  dim : Nat
  points : List QPoint
deriving DecidableEq, Repr

/-- `QdrantStorage.upsert` (`vector_database.py` lines 41-72): reject empty
inputs, reject length mismatches, validate every vector's dimension, and only
then build the `PointStruct` list and hand it to the client.  An
`Except.error` result means the exception was raised before `client.upsert`
ran, so the stored points are unchanged. -/
def QdrantStorage.upsert (s : QdrantStorage) (vectors : List Vec)
    (ids : List String) (payloads : List Payload) :
    Except String QdrantStorage :=
  if vectors.isEmpty ∨ ids.isEmpty ∨ payloads.isEmpty then
    .error "vectors, ids, and payloads cannot be empty"
  else if vectors.length ≠ ids.length ∨ vectors.length ≠ payloads.length then
    .error "Length mismatch"
  else if vectors.any (fun v => v.length ≠ s.dim) then
    .error "Vector has wrong dimension"
  else
    let points := (List.range ids.length).map (fun i =>
      QPoint.mk (ids.getD i "") (vectors.getD i []) (payloads.getD i ⟨"", ""⟩))
    .ok { s with points := clientUpsert s.points points }

/-- The result-reduction loop of `QdrantStorage.search` (lines 95-107):
`contexts` collects the non-empty payload texts in rank order; `sources` is a
set (modelled as a first-occurrence list) of the non-empty payload sources of
those same records. -/
def reduceStep (acc : List String × List String) (r : QPoint) :
    List String × List String :=
  let text := r.payload.text
  let source := r.payload.source
  if text ≠ "" then
    (acc.1 ++ [text],
      if source ≠ "" then
        (if source ∈ acc.2 then acc.2 else acc.2 ++ [source])
      else acc.2)
  else acc

/-- The `for r in results` loop of `QdrantStorage.search`. -/
def reduceResults (results : List QPoint) : List String × List String :=
  results.foldl reduceStep ([], [])

/-- Search output `{"contexts": ..., "sources": ...}`. -/
structure SearchOut where
  contexts : List String
  sources : List String
deriving DecidableEq, Repr

/-- `QdrantStorage.search` (`vector_database.py` lines 74-116): validate the
query vector and `top_k`, call the client, and reduce the matched records to
contexts and deduplicated sources. -/
def QdrantStorage.search (s : QdrantStorage) (score : Score)
    (query_vector : Vec) (top_k : Int) : Except String SearchOut :=
  if query_vector.isEmpty then .error "query_vector cannot be empty"
  else if query_vector.length ≠ s.dim then
    .error "Query vector has wrong dimension"
  else if top_k < 1 then .error "top_k must be at least 1"
  else
    let results := clientSearch score s.points query_vector top_k.toNat
    let r := reduceResults results
    .ok { contexts := r.1, sources := r.2 }

/-- The deterministic id derivation of `upsert_embeddings` (`main.py` line
75): `str(uuid.uuid5(uuid.NAMESPACE_URL, f"(source_id):(i)"))`.  `uuid5` is a
pure name-based hash, modelled as an abstract function `u5` from the hashed
name `source_id ++ ":" ++ i` to the id string. -/
def chunkIds (u5 : String → String) (source_id : String) (n : Nat) :
    List String :=
  (List.range n).map (fun i => u5 (source_id ++ ":" ++ toString i))

/-- `main.upsert_embeddings` (lines 62-86): embed the chunks, check the
vector count, derive deterministic ids and payloads, and upsert into a
dimension-768 store over the persisted points.  Returns
`RAGUpsertResult(ingested=len(chunks))` together with the new store. -/
def upsert_embeddings (u5 : String → String) (svc : EmbedService)
    (store : List QPoint) (chunks : List String) (source_id : String) :
    Except String (Nat × QdrantStorage) :=
  if chunks.isEmpty then .error "No chunks provided for embedding"
  else
    match embed_texts svc chunks with
    | .error e => .error e
    | .ok vecs =>
      if vecs.isEmpty ∨ vecs.length ≠ chunks.length then
        .error "Embedding failed"
      else
        let ids := chunkIds u5 source_id chunks.length
        let payloads := (List.range chunks.length).map (fun i =>
          Payload.mk source_id (chunks.getD i ""))
        let s : QdrantStorage := { dim := 768, points := store }
        match s.upsert vecs ids payloads with
        | .error e => .error e
        | .ok s2 => .ok (chunks.length, s2)

/-- `main.search_contexts` (lines 89-112): reject a blank question, embed it
with `embed_texts` (document mode), search the store, and return
`{contexts: [], sources: []}` when nothing was found. -/
def search_contexts (svc : EmbedService) (score : Score)
    (store : List QPoint) (question : String) (top_k : Int) :
    Except String SearchOut :=
  if isBlank question then .error "Question cannot be empty"
  else
    match embed_texts svc [question] with
    | .error e => .error e
    | .ok query_vecs =>
      if query_vecs.isEmpty then .error "Failed to embed question"
      else
        let s : QdrantStorage := { dim := 768, points := store }
        match s.search score (query_vecs.headD []) top_k with
        | .error e => .error e
        | .ok found =>
          if found.contexts.isEmpty then
            .ok { contexts := [], sources := [] }
          else .ok found

/-- The input-validation prefix of `main.ragent_query_pdf_ai` (lines
186-202): reject a blank question, reject `top_k` outside `[1, 20]`, then
run `search_contexts`.  The answer-generation step is external and elided. -/
def ragent_query_pdf_ai (svc : EmbedService) (score : Score)
    (store : List QPoint) (question : String) (top_k : Int) :
    Except String SearchOut :=
  if isBlank question then .error "question is required and cannot be empty"
  else if top_k < 1 ∨ top_k > 20 then
    .error "top_k must be between 1 and 20"
  else search_contexts svc score store question top_k

/-- The ids held in a point list. -/
def idsOf (pts : List QPoint) : List String := pts.map (fun p => p.id)

/-- A 768-dimensional zero vector, used as the output of concrete test
embedding services. -/
def zeroVec : Vec := List.replicate EMBED_DIM (0 : ℚ)

/-- A concrete embedding service that always succeeds with `zeroVec`. -/
def constSvc : EmbedService := fun _ _ => .ok zeroVec

/-- A concrete embedding service that fails on any text longer than 10000
characters (a stand-in for a service with a hard input-length limit). -/
def lenSvc : EmbedService := fun _ t =>
  if t.length ≤ 10000 then .ok zeroVec else .error "input too long"

/-- A concrete embedding service that only answers query-mode requests. -/
def queryOnlySvc : EmbedService := fun task _ =>
  if task = "retrieval_query" then .ok zeroVec
  else .error "document task not available"

/-- A 10001-character text, one character over the truncation limit. -/
def bigText : String := String.mk (List.replicate 10001 'a')

/-- A concrete score function (all records tie at 0). -/
def zeroScore : Score := fun _ _ => 0

/-- The batch of points that `upsert_embeddings` hands to the store for a
given chunk list and its embeddings: chunk `i` gets id
`u5 (source_id ++ ":" ++ i)`, vector `vs[i]` and payload
`{source: source_id, text: chunks[i]}`. -/
def ingestPoints (u5 : String → String) (source_id : String)
    (chunks : List String) (vs : List Vec) : List QPoint :=
  (List.range chunks.length).map (fun i =>
    QPoint.mk (u5 (source_id ++ ":" ++ toString i)) (vs.getD i [])
      (Payload.mk source_id (chunks.getD i "")))

section EmbedLemmas

variable {svc : EmbedService}

lemma embedOne_ok {t : String} {v : Vec} (h : embedOne svc t = .ok v) :
    v.length = EMBED_DIM ∧ svc "retrieval_document" (truncateText t) = .ok v := by
  unfold embedOne at h
  cases hs : svc "retrieval_document" (truncateText t) with
  | error e => rw [hs] at h; exact absurd h (by simp)
  | ok w =>
    rw [hs] at h
    by_cases hl : w.length = EMBED_DIM
    · simp [hl] at h
      subst h
      exact ⟨hl, rfl⟩
    · simp [hl] at h

lemma embedLoop_ok {ts : List String} {vs : List Vec}
    (h : embedLoop svc ts = .ok vs) :
    vs.length = ts.length ∧
      ∀ v ∈ vs, v.length = EMBED_DIM ∧
        ∃ t, svc "retrieval_document" t = .ok v := by
  induction ts generalizing vs with
  | nil =>
    unfold embedLoop at h
    simp at h
    subst h
    simp
  | cons t ts ih =>
    unfold embedLoop at h
    cases h1 : embedOne svc t with
    | error e => rw [h1] at h; exact absurd h (by simp)
    | ok v =>
      rw [h1] at h
      cases h2 : embedLoop svc ts with
      | error e => rw [h2] at h; exact absurd h (by simp)
      | ok ws =>
        rw [h2] at h
        simp at h
        subst h
        obtain ⟨hlen, hall⟩ := ih h2
        obtain ⟨hv, hsvc⟩ := embedOne_ok h1
        refine ⟨by simp [hlen], ?_⟩
        intro w hw
        rcases List.mem_cons.mp hw with hw | hw
        · exact hw ▸ ⟨hv, _, hsvc⟩
        · exact hall w hw

lemma embed_texts_of_filter_ne_nil {texts : List String}
    (h : texts.filter (fun t => !(isBlank t)) ≠ []) :
    embed_texts svc texts =
      embedLoop svc (texts.filter (fun t => !(isBlank t))) := by
  unfold embed_texts
  have hne : ¬ texts.isEmpty = true := by
    intro he
    rw [List.isEmpty_iff.mp he] at h
    exact h rfl
  rw [if_neg hne, if_neg (by simpa [List.isEmpty_iff] using h)]

lemma embed_texts_of_filter_nil {texts : List String}
    (h : texts.filter (fun t => !(isBlank t)) = []) :
    ∃ e, embed_texts svc texts = .error e := by
  unfold embed_texts
  by_cases he : texts.isEmpty
  · exact ⟨_, by rw [if_pos he]⟩
  · exact ⟨_, by rw [if_neg he, if_pos (by simpa [List.isEmpty_iff] using h)]⟩

lemma embed_texts_ok {texts : List String} {vs : List Vec}
    (h : embed_texts svc texts = .ok vs) :
    vs.length = (texts.filter (fun t => !(isBlank t))).length ∧
      ∀ v ∈ vs, v.length = EMBED_DIM ∧
        ∃ t, svc "retrieval_document" t = .ok v := by
  by_cases hf : texts.filter (fun t => !(isBlank t)) = []
  · obtain ⟨e, he⟩ := @embed_texts_of_filter_nil svc texts hf
    rw [he] at h
    exact absurd h (by simp)
  · rw [embed_texts_of_filter_ne_nil hf] at h
    exact embedLoop_ok h

end EmbedLemmas

section EmbedLemmas2

variable {svc : EmbedService}

set_option maxRecDepth 8000

lemma embed_query_ok {q : String} {v : Vec} (h : embed_query svc q = .ok v) :
    v.length = EMBED_DIM ∧ svc "retrieval_query" q = .ok v := by
  unfold embed_query at h
  by_cases hb : isBlank q
  · rw [if_pos hb] at h; exact absurd h (by simp)
  · rw [if_neg hb] at h
    cases hs : svc "retrieval_query" q with
    | error e => rw [hs] at h; exact absurd h (by simp)
    | ok w =>
      rw [hs] at h
      by_cases hl : w.length = EMBED_DIM
      · simp [hl] at h
        subst h
        exact ⟨hl, rfl⟩
      · simp [hl] at h

lemma truncateText_idem (s : String) :
    truncateText (truncateText s) = truncateText s := by
  unfold truncateText
  by_cases h : s.data.length > 10000
  · rw [if_pos h, if_neg (by simp)]
  · rw [if_neg h, if_neg h]

lemma embedOne_trunc (t : String) :
    embedOne svc t = embedOne (fun task t => svc task (truncateText t)) t := by
  unfold embedOne
  simp only [truncateText_idem]

lemma embedLoop_trunc (ts : List String) :
    embedLoop svc ts = embedLoop (fun task t => svc task (truncateText t)) ts := by
  induction ts with
  | nil => rfl
  | cons t ts ih => unfold embedLoop; rw [← embedOne_trunc, ← ih]

lemma bigText_data : bigText.data = List.replicate 10001 'a' := rfl

lemma isBlank_bigText : isBlank bigText = false := by
  have h : ¬ isBlank bigText = true := by
    intro h
    rw [isBlank, List.all_eq_true] at h
    have ha := h 'a'
      (by rw [bigText_data]; exact List.mem_replicate.mpr ⟨by norm_num, rfl⟩)
    exact absurd ha (by decide)
  simpa using h

lemma bigText_len : bigText.length = 10001 := by
  show bigText.data.length = 10001
  rw [bigText_data, List.length_replicate]

lemma truncate_bigText :
    truncateText bigText = String.mk (List.replicate 10000 'a') := by
  rw [truncateText, if_pos (by
    show bigText.data.length > 10000
    rw [bigText_data, List.length_replicate]; norm_num)]
  rw [bigText_data, List.take_replicate]
  norm_num

lemma truncBig_len : (truncateText bigText).length = 10000 := by
  rw [truncate_bigText]
  show (List.replicate 10000 'a').length = 10000
  rw [List.length_replicate]

lemma lenSvc_doc_big :
    lenSvc "retrieval_document" (truncateText bigText) = .ok zeroVec := by
  show (if (truncateText bigText).length ≤ 10000 then
      (Except.ok zeroVec : Except String Vec)
    else .error "input too long") = .ok zeroVec
  rw [truncBig_len, if_pos (by norm_num)]

lemma lenSvc_query_big :
    lenSvc "retrieval_query" bigText = .error "input too long" := by
  show (if bigText.length ≤ 10000 then (Except.ok zeroVec : Except String Vec)
    else .error "input too long") = .error "input too long"
  rw [bigText_len, if_neg (by norm_num)]

lemma embed_texts_lenSvc_big : embed_texts lenSvc [bigText] = .ok [zeroVec] := by
  rw [embed_texts, if_neg (by decide)]
  simp only [List.filter_cons, List.filter_nil, isBlank_bigText, Bool.not_false,
    if_pos]
  rw [if_neg (by decide)]
  unfold embedLoop embedOne
  rw [lenSvc_doc_big]
  decide

lemma embed_query_lenSvc_big :
    embed_query lenSvc bigText = .error "input too long" := by
  rw [embed_query, if_neg (by simp [isBlank_bigText])]
  rw [show (match lenSvc "retrieval_query" bigText with
      | .error e => (Except.error e : Except String Vec)
      | .ok embedding =>
        if embedding.length ≠ EMBED_DIM then
          .error "Expected embedding dimension EMBED_DIM"
        else .ok embedding) = Except.error "input too long" from by
    rw [lenSvc_query_big]]

end EmbedLemmas2

section ClaimTheorems1

set_option maxRecDepth 8000

/-- C4: every embedding call (each `embed_texts` batch element and
`embed_query`) either returns vectors whose length equals the configured
dimension `EMBED_DIM = 768`, or fails; a returned vector is exactly what the
external service produced for some text — never padded or truncated. -/
theorem embed_dimension_validated (svc : EmbedService) (texts : List String)
    (q : String) :
    (∀ vs, embed_texts svc texts = .ok vs →
      ∀ v ∈ vs, v.length = EMBED_DIM ∧
        ∃ t, svc "retrieval_document" t = .ok v)
    ∧ (∀ v, embed_query svc q = .ok v →
      v.length = EMBED_DIM ∧ svc "retrieval_query" q = .ok v) :=
  ⟨fun _ h v hv => (embed_texts_ok h).2 v hv, fun _ h => embed_query_ok h⟩

/-- Witness for C4 at `constSvc`, `texts = ["a"]`, `q = "b"`. -/
theorem embed_dimension_validated_witness :
    zeroVec.length = EMBED_DIM ∧
      ∃ t, constSvc "retrieval_document" t = .ok zeroVec :=
  (embed_dimension_validated constSvc ["a"] "b").1 [zeroVec] (by decide)
    zeroVec (by simp)

/-- C5 counterexample: the batch `["", "hello"]` contains a blank text, yet
`embed_texts` does not reject it — it silently drops the blank element,
embeds `"hello"`, and succeeds. -/
theorem embed_texts_blank_not_rejected :
    embed_texts constSvc ["", "hello"] = .ok [zeroVec]
    ∧ ∀ e, embed_texts constSvc ["", "hello"] ≠ .error e := by
  have h1 : embed_texts constSvc ["", "hello"] = .ok [zeroVec] := by decide
  refine ⟨h1, fun e h => ?_⟩
  rw [h1] at h
  exact absurd h (by simp)

/-- C5 amended: `embed_texts` filters out empty/blank texts before calling
the external service and embeds only the remaining texts; it rejects the
batch with an error when the list is empty or every text is blank (not
whenever some blank text is present). -/
theorem embed_texts_drops_blanks (svc : EmbedService) (texts : List String) :
    (texts.filter (fun t => !(isBlank t)) = [] →
      ∃ e, embed_texts svc texts = .error e)
    ∧ (texts.filter (fun t => !(isBlank t)) ≠ [] →
      embed_texts svc texts =
        embedLoop svc (texts.filter (fun t => !(isBlank t)))) :=
  ⟨embed_texts_of_filter_nil, embed_texts_of_filter_ne_nil⟩

/-- Witness for C5-amended at the batch `["", "hello"]`. -/
theorem embed_texts_drops_blanks_witness :
    (["", "hello"].filter (fun t => !(isBlank t)) ≠ []) ∧
      embed_texts constSvc ["", "hello"] =
        embedLoop constSvc (["", "hello"].filter (fun t => !(isBlank t))) :=
  ⟨by decide, (embed_texts_drops_blanks constSvc ["", "hello"]).2 (by decide)⟩

/-- C6 counterexample: `bigText` has 10001 characters.  Against a service
that rejects inputs longer than 10000 characters, `embed_texts` truncates
and succeeds, but `embed_query` passes the text through untruncated and the
call fails — so the claim's "both embed_texts elements and embed_query"
is false for `embed_query`. -/
theorem embed_query_not_truncated :
    embed_texts lenSvc [bigText] = .ok [zeroVec]
    ∧ embed_query lenSvc bigText = .error "input too long" :=
  ⟨embed_texts_lenSvc_big, embed_query_lenSvc_big⟩

/-- C6 amended: every text handed to the external service by `embed_texts`
is first truncated to at most 10000 characters (the batch behaves exactly as
if the service saw pre-truncated inputs); `embed_query` performs no
truncation and sends the query as given. -/
theorem embed_texts_truncates_long (svc : EmbedService) (texts : List String)
    (q : String) :
    embed_texts svc texts =
      embed_texts (fun task t => svc task (truncateText t)) texts
    ∧ (isBlank q = false →
      embed_query svc q =
        match svc "retrieval_query" q with
        | .error e => .error e
        | .ok embedding =>
          if embedding.length ≠ EMBED_DIM then
            .error "Expected embedding dimension EMBED_DIM"
          else .ok embedding) := by
  constructor
  · unfold embed_texts
    by_cases he : texts.isEmpty
    · rw [if_pos he, if_pos he]
    · rw [if_neg he, if_neg he]
      by_cases hf : (texts.filter (fun t => !(isBlank t))).isEmpty
      · rw [if_pos hf, if_pos hf]
      · rw [if_neg hf, if_neg hf, embedLoop_trunc]
  · intro hq
    rw [embed_query, if_neg (by simp [hq])]

/-- Witness for C6-amended at `lenSvc`, `texts = [bigText]`, `q = "b"`. -/
theorem embed_texts_truncates_long_witness :
    (isBlank "b" = false) ∧
      embed_query lenSvc "b" =
        match lenSvc "retrieval_query" "b" with
        | .error e => .error e
        | .ok embedding =>
          if embedding.length ≠ EMBED_DIM then
            .error "Expected embedding dimension EMBED_DIM"
          else .ok embedding :=
  ⟨by decide, (embed_texts_truncates_long lenSvc [bigText] "b").2 (by decide)⟩

/-- C2 (code bug): the retrieval pipeline does not embed the question in
query mode.  Against a service that answers only `"retrieval_query"`
requests, `embed_query` on the question succeeds, yet `search_contexts`
fails — because it calls `embed_texts`, which uses
`task_type="retrieval_document"` (`main.py` line 96 calls `embed_texts`
instead of the purpose-built `embed_query`). -/
theorem search_contexts_uses_document_mode :
    embed_query queryOnlySvc "What is RAG?" = .ok zeroVec
    ∧ search_contexts queryOnlySvc zeroScore [] "What is RAG?" 5 =
        .error "document task not available" := by
  constructor
  · decide
  · decide

end ClaimTheorems1

section StoreLemmas

lemma idsOf_putPoint_of_mem {pts : List QPoint} {p : QPoint}
    (h : p.id ∈ idsOf pts) : idsOf (putPoint pts p) = idsOf pts := by
  obtain ⟨q, hq, hid⟩ := List.mem_map.mp h
  rw [putPoint, if_pos (List.any_eq_true.mpr ⟨q, hq, by simp [hid]⟩)]
  rw [idsOf, List.map_map]
  apply List.map_congr_left
  intro r hr
  by_cases h2 : r.id == p.id
  · simp only [Function.comp_apply]
    rw [if_pos h2]
    exact ((beq_iff_eq).mp h2).symm
  · simp only [Function.comp_apply]
    rw [if_neg (by simpa using h2)]

lemma mem_idsOf_putPoint {pts : List QPoint} {p : QPoint} {x : String}
    (h : x ∈ idsOf pts) : x ∈ idsOf (putPoint pts p) := by
  unfold putPoint
  by_cases hc : pts.any (fun q => q.id == p.id)
  · rw [if_pos hc]
    obtain ⟨r, hr, hrx⟩ := List.mem_map.mp h
    rw [idsOf, List.map_map]
    refine List.mem_map.mpr ⟨r, hr, ?_⟩
    by_cases h2 : r.id == p.id
    · simp only [Function.comp_apply]
      rw [if_pos h2, ← hrx]
      exact ((beq_iff_eq).mp h2).symm
    · simp only [Function.comp_apply]
      rw [if_neg (by simpa using h2)]
      exact hrx
  · rw [if_neg hc, idsOf, List.map_append]
    exact List.mem_append_left _ h

lemma self_mem_idsOf_putPoint (pts : List QPoint) (p : QPoint) :
    p.id ∈ idsOf (putPoint pts p) := by
  unfold putPoint
  by_cases hc : pts.any (fun q => q.id == p.id)
  · rw [if_pos hc]
    obtain ⟨r, hr, hid⟩ := List.any_eq_true.mp hc
    rw [idsOf, List.map_map]
    refine List.mem_map.mpr ⟨r, hr, ?_⟩
    simp only [Function.comp_apply]
    rw [if_pos hid]
  · rw [if_neg hc, idsOf, List.map_append]
    simp

lemma mem_idsOf_clientUpsert {pts ps : List QPoint} {x : String}
    (h : x ∈ idsOf pts) : x ∈ idsOf (clientUpsert pts ps) := by
  induction ps generalizing pts with
  | nil => exact h
  | cons q ps ih =>
    rw [clientUpsert, List.foldl_cons]
    exact ih (mem_idsOf_putPoint h)

lemma batch_mem_idsOf_clientUpsert {pts ps : List QPoint} :
    ∀ p ∈ ps, p.id ∈ idsOf (clientUpsert pts ps) := by
  induction ps generalizing pts with
  | nil => simp
  | cons q ps ih =>
    intro p hp
    rw [clientUpsert, List.foldl_cons]
    rcases List.mem_cons.mp hp with h | h
    · subst h
      exact mem_idsOf_clientUpsert (self_mem_idsOf_putPoint pts p)
    · exact ih p h

lemma idsOf_clientUpsert_of_subset {pts ps : List QPoint}
    (h : ∀ p ∈ ps, p.id ∈ idsOf pts) :
    idsOf (clientUpsert pts ps) = idsOf pts := by
  induction ps generalizing pts with
  | nil => rfl
  | cons q ps ih =>
    rw [clientUpsert, List.foldl_cons]
    have h2 : idsOf (putPoint pts q) = idsOf pts :=
      idsOf_putPoint_of_mem (h q (List.mem_cons_self q ps))
    have h3 : ∀ p ∈ ps, p.id ∈ idsOf (putPoint pts q) := by
      intro p hp
      rw [h2]
      exact h p (List.mem_cons_of_mem q hp)
    calc idsOf (List.foldl putPoint (putPoint pts q) ps)
        = idsOf (putPoint pts q) := ih h3
      _ = idsOf pts := h2

lemma reduce_fst (rs : List QPoint) :
    ∀ acc : List String × List String,
      (List.foldl reduceStep acc rs).1 =
        acc.1 ++ (rs.filter (fun p => p.payload.text != "")).map
          (fun p => p.payload.text) := by
  induction rs with
  | nil => intro acc; simp
  | cons r rs ih =>
    intro acc
    rw [List.foldl_cons, ih]
    by_cases ht : r.payload.text = ""
    · simp [reduceStep, ht, List.filter_cons]
    · simp [reduceStep, ht, List.filter_cons]

lemma reduce_step_snd_mem (r : QPoint) (acc : List String × List String)
    (x : String) :
    x ∈ (reduceStep acc r).2 ↔
      x ∈ acc.2 ∨
        (r.payload.text ≠ "" ∧ r.payload.source = x ∧ x ≠ "") := by
  unfold reduceStep
  by_cases ht : r.payload.text = ""
  · simp [ht]
  · rw [if_pos ht]
    by_cases hs : r.payload.source = ""
    · simp only [hs]
      constructor
      · exact fun h => Or.inl h
      · rintro (h | ⟨_, hx, hne⟩)
        · exact h
        · exact absurd hx.symm hne
    · simp only [if_pos hs]
      by_cases hmem : r.payload.source ∈ acc.2
      · rw [if_pos hmem]
        constructor
        · exact fun h => Or.inl h
        · rintro (h | ⟨_, hx, _⟩)
          · exact h
          · exact hx ▸ hmem
      · rw [if_neg hmem]
        simp only [List.mem_append, List.mem_singleton]
        constructor
        · rintro (h | h)
          · exact Or.inl h
          · exact Or.inr ⟨ht, h.symm, h ▸ hs⟩
        · rintro (h | ⟨_, hx, _⟩)
          · exact Or.inl h
          · exact Or.inr hx.symm

lemma reduce_snd_mem (rs : List QPoint) :
    ∀ (acc : List String × List String) (x : String),
      x ∈ (List.foldl reduceStep acc rs).2 ↔
        x ∈ acc.2 ∨
          ∃ p ∈ rs, p.payload.text ≠ "" ∧ p.payload.source = x ∧ x ≠ "" := by
  induction rs with
  | nil => intro acc x; simp
  | cons r rs ih =>
    intro acc x
    rw [List.foldl_cons, ih, reduce_step_snd_mem]
    simp only [List.exists_mem_cons_iff]
    tauto

lemma reduce_snd_nodup (rs : List QPoint) :
    ∀ acc : List String × List String,
      acc.2.Nodup → (List.foldl reduceStep acc rs).2.Nodup := by
  induction rs with
  | nil => intro acc h; exact h
  | cons r rs ih =>
    intro acc h
    rw [List.foldl_cons]
    apply ih
    unfold reduceStep
    by_cases ht : r.payload.text = ""
    · simpa [ht] using h
    · rw [if_pos ht]
      by_cases hs : r.payload.source = ""
      · simpa [hs] using h
      · simp only [if_pos hs]
        by_cases hmem : r.payload.source ∈ acc.2
        · rw [if_pos hmem]; exact h
        · rw [if_neg hmem]
          simp [List.nodup_append, h, hmem]

end StoreLemmas

section SearchLemmas

lemma clientSearch_subset (score : Score) (pts : List QPoint) (qv : Vec)
    (limit : Nat) : ∀ p ∈ clientSearch score pts qv limit, p ∈ pts := by
  intro p hp
  have h1 := (List.take_sublist limit _).subset hp
  exact (List.perm_insertionSort (descBy score qv) pts).mem_iff.mp h1

lemma clientSearch_length (score : Score) (pts : List QPoint) (qv : Vec)
    (limit : Nat) : (clientSearch score pts qv limit).length ≤ limit := by
  rw [clientSearch, List.length_take]
  exact min_le_left _ _

lemma clientSearch_sorted (score : Score) (pts : List QPoint) (qv : Vec)
    (limit : Nat) :
    List.Sorted (descBy score qv) (clientSearch score pts qv limit) :=
  List.Pairwise.sublist (List.take_sublist limit _)
    (List.sorted_insertionSort (descBy score qv) pts)

lemma search_ok (s : QdrantStorage) (score : Score) (qv : Vec) (k : Int)
    (h1 : ¬ qv.isEmpty = true) (h2 : qv.length = s.dim) (h3 : 1 ≤ k) :
    s.search score qv k =
      .ok ⟨(reduceResults (clientSearch score s.points qv k.toNat)).1,
        (reduceResults (clientSearch score s.points qv k.toNat)).2⟩ := by
  unfold QdrantStorage.search
  rw [if_neg h1, if_neg (by simp [h2]), if_neg (not_lt.mpr h3)]

lemma search_ok_inv {s : QdrantStorage} {score : Score} {qv : Vec} {k : Int}
    {r : SearchOut} (h : s.search score qv k = .ok r) :
    r.contexts = (reduceResults (clientSearch score s.points qv k.toNat)).1 ∧
      r.sources = (reduceResults (clientSearch score s.points qv k.toNat)).2 := by
  unfold QdrantStorage.search at h
  by_cases h1 : qv.isEmpty
  · rw [if_pos h1] at h; exact absurd h (by simp)
  · rw [if_neg h1] at h
    by_cases h2 : qv.length ≠ s.dim
    · rw [if_pos h2] at h; exact absurd h (by simp)
    · rw [if_neg h2] at h
      by_cases h3 : k < 1
      · rw [if_pos h3] at h; exact absurd h (by simp)
      · rw [if_neg h3] at h
        simp only [Except.ok.injEq] at h
        exact ⟨by rw [← h], by rw [← h]⟩

end SearchLemmas

section ClaimTheorems2

set_option maxRecDepth 8000

/-- C3: `QdrantStorage.upsert` fails with an error whenever the three input
sequences do not all have equal length, or some vector's length differs from
the collection's dimension.  In the model an `Except.error` result is raised
before `client.upsert` runs, so no write reaches the store and its state is
unchanged. -/
theorem upsert_validates_before_write (s : QdrantStorage)
    (vectors : List Vec) (ids : List String) (payloads : List Payload)
    (h : ¬(vectors.length = ids.length ∧ vectors.length = payloads.length)
      ∨ ∃ v ∈ vectors, v.length ≠ s.dim) :
    ∃ e, s.upsert vectors ids payloads = .error e := by
  unfold QdrantStorage.upsert
  by_cases h1 : vectors.isEmpty ∨ ids.isEmpty ∨ payloads.isEmpty
  · exact ⟨_, by rw [if_pos h1]⟩
  · rw [if_neg h1]
    by_cases h2 : vectors.length ≠ ids.length ∨ vectors.length ≠ payloads.length
    · exact ⟨_, by rw [if_pos h2]⟩
    · rw [if_neg h2]
      push_neg at h2
      rcases h with h | ⟨v, hv, hd⟩
      · exact absurd ⟨h2.1, h2.2⟩ h
      · exact ⟨_, by
          rw [if_pos (List.any_eq_true.mpr ⟨v, hv, by simp [hd]⟩)]⟩

/-- Witness for C3: one vector but two ids (a length mismatch). -/
theorem upsert_validates_before_write_witness :
    ∃ e, (QdrantStorage.mk 2 []).upsert [[0, 0]] ["a", "b"]
      [Payload.mk "s" "t"] = .error e :=
  upsert_validates_before_write (QdrantStorage.mk 2 []) [[0, 0]] ["a", "b"]
    [Payload.mk "s" "t"] (Or.inl (by decide))

/-- C7: a successful `search` with `top_k = k` returns at most `k` contexts,
drawn in order from the matched records, which are sorted by descending
similarity score; `sources` has no repeated element and its size is bounded
by the number of distinct source ids stored in the collection. -/
theorem search_ranked_and_deduplicated (score : Score) (s : QdrantStorage)
    (qv : Vec) (k : Int) (h1 : ¬ qv.isEmpty = true) (h2 : qv.length = s.dim)
    (h3 : 1 ≤ k) :
    ∃ r, s.search score qv k = .ok r
      ∧ r.contexts.length ≤ k.toNat
      ∧ r.contexts = ((clientSearch score s.points qv k.toNat).filter
          (fun p => p.payload.text != "")).map (fun p => p.payload.text)
      ∧ List.Sorted (descBy score qv) (clientSearch score s.points qv k.toNat)
      ∧ r.sources.Nodup
      ∧ r.sources.length ≤
          ((s.points.map (fun p => p.payload.source)).dedup).length := by
  have hctx : (reduceResults (clientSearch score s.points qv k.toNat)).1 =
      ((clientSearch score s.points qv k.toNat).filter
        (fun p => p.payload.text != "")).map (fun p => p.payload.text) := by
    simpa using reduce_fst (clientSearch score s.points qv k.toNat) ([], [])
  have hnodup : (reduceResults (clientSearch score s.points qv k.toNat)).2.Nodup :=
    reduce_snd_nodup (clientSearch score s.points qv k.toNat) ([], [])
      (by simp)
  refine ⟨_, search_ok s score qv k h1 h2 h3, ?_, hctx, ?_, hnodup, ?_⟩
  · rw [hctx, List.length_map]
    exact le_trans (List.length_filter_le _ _)
      (clientSearch_length score s.points qv k.toNat)
  · exact clientSearch_sorted score s.points qv k.toNat
  · have hsub : (reduceResults (clientSearch score s.points qv k.toNat)).2 ⊆
        (s.points.map (fun p => p.payload.source)).dedup := by
      intro x hx
      rcases (reduce_snd_mem (clientSearch score s.points qv k.toNat)
          ([], []) x).mp hx with h | ⟨p, hp, _, hsrc, _⟩
      · simp at h
      · exact List.mem_dedup.mpr (List.mem_map.mpr
          ⟨p, clientSearch_subset score s.points qv k.toNat p hp, hsrc⟩)
    exact (hnodup.subperm hsub).length_le

/-- Witness for C7: a one-point store, `top_k = 5`. -/
theorem search_ranked_and_deduplicated_witness :
    ∃ r, (QdrantStorage.mk 768
        [QPoint.mk "id1" zeroVec (Payload.mk "src" "hello")]).search
        zeroScore zeroVec 5 = .ok r ∧
      r.contexts.length ≤ (5 : Int).toNat ∧
      r.contexts = ((clientSearch zeroScore
          [QPoint.mk "id1" zeroVec (Payload.mk "src" "hello")] zeroVec
          (5 : Int).toNat).filter (fun p => p.payload.text != "")).map
          (fun p => p.payload.text) ∧
      List.Sorted (descBy zeroScore zeroVec) (clientSearch zeroScore
        [QPoint.mk "id1" zeroVec (Payload.mk "src" "hello")] zeroVec
        (5 : Int).toNat) ∧
      r.sources.Nodup ∧
      r.sources.length ≤
        (([QPoint.mk "id1" zeroVec (Payload.mk "src" "hello")].map
          (fun p => p.payload.source)).dedup).length :=
  search_ranked_and_deduplicated zeroScore
    (QdrantStorage.mk 768 [QPoint.mk "id1" zeroVec (Payload.mk "src" "hello")])
    zeroVec 5 (by decide) (by decide) (by decide)

/-- C10: in a successful `search`, a matched record contributes a context
exactly when its payload `text` is non-empty, and contributes a source
exactly when additionally its payload `source` is non-empty; a record with
text but empty source therefore shows up in `contexts` with no entry in
`sources`. -/
theorem search_payload_field_filtering (score : Score) (s : QdrantStorage)
    (qv : Vec) (k : Int) (r : SearchOut) (h : s.search score qv k = .ok r) :
    r.contexts = ((clientSearch score s.points qv k.toNat).filter
        (fun p => p.payload.text != "")).map (fun p => p.payload.text)
    ∧ ∀ x, x ∈ r.sources ↔
        ∃ p ∈ clientSearch score s.points qv k.toNat,
          p.payload.text ≠ "" ∧ p.payload.source = x ∧ x ≠ "" := by
  obtain ⟨hc, hs⟩ := search_ok_inv h
  constructor
  · rw [hc]
    simpa using reduce_fst (clientSearch score s.points qv k.toNat) ([], [])
  · intro x
    rw [hs, reduceResults,
      reduce_snd_mem (clientSearch score s.points qv k.toNat) ([], []) x]
    simp

/-- Witness for C10: a store holding one record whose payload has text
`"hello"` but an empty source; the record appears in `contexts` while
`sources` stays empty. -/
theorem search_payload_field_filtering_witness :
    (SearchOut.mk ["hello"] []).contexts =
      ((clientSearch zeroScore [QPoint.mk "id1" zeroVec (Payload.mk "" "hello")]
        zeroVec (5 : Int).toNat).filter (fun p => p.payload.text != "")).map
        (fun p => p.payload.text) :=
  (search_payload_field_filtering zeroScore
    (QdrantStorage.mk 768 [QPoint.mk "id1" zeroVec (Payload.mk "" "hello")])
    zeroVec 5 (SearchOut.mk ["hello"] []) (by decide)).1

end ClaimTheorems2

section ClaimTheorems3

set_option maxRecDepth 8000

lemma embed_texts_single_ok {svc : EmbedService} {question : String} {v : Vec}
    (hq : isBlank question = false)
    (hv : svc "retrieval_document" (truncateText question) = .ok v)
    (hvlen : v.length = EMBED_DIM) :
    embed_texts svc [question] = .ok [v] := by
  have hfil : [question].filter (fun t => !(isBlank t)) = [question] := by
    simp [hq]
  have h1 : embedOne svc question = .ok v := by
    unfold embedOne
    rw [hv]
    simp [hvlen]
  rw [embed_texts_of_filter_ne_nil (by rw [hfil]; simp), hfil]
  unfold embedLoop
  rw [h1]
  rfl

/-- C8: a retrieval over a store with zero records succeeds and returns
`{contexts: [], sources: []}` rather than an error (provided the question is
non-blank, the embedding service succeeds with a 768-dimensional vector, and
`top_k ≥ 1`). -/
theorem search_contexts_zero_matches (svc : EmbedService) (score : Score)
    (question : String) (k : Int) (v : Vec)
    (hq : isBlank question = false)
    (hv : svc "retrieval_document" (truncateText question) = .ok v)
    (hvlen : v.length = EMBED_DIM) (hk : 1 ≤ k) :
    search_contexts svc score [] question k = .ok ⟨[], []⟩ := by
  have h0 : ¬ v.isEmpty = true := by
    intro hh
    rw [List.isEmpty_iff.mp hh] at hvlen
    exact absurd hvlen (by decide)
  have hsearch : (QdrantStorage.mk 768 []).search score v k = .ok ⟨[], []⟩ := by
    rw [search_ok (QdrantStorage.mk 768 []) score v k h0 (by rw [hvlen]; rfl) hk]
    simp [clientSearch, List.insertionSort, List.take_nil, reduceResults]
  rw [search_contexts, if_neg (by simp [hq]),
    embed_texts_single_ok hq hv hvlen]
  show (if ([v] : List Vec).isEmpty = true then
      (Except.error "Failed to embed question" : Except String SearchOut)
    else
      match (QdrantStorage.mk 768 []).search score ([v].headD []) k with
      | .error e => .error e
      | .ok found =>
        if found.contexts.isEmpty then .ok ⟨[], []⟩ else .ok found) =
    .ok ⟨[], []⟩
  rw [if_neg (by simp), show ([v].headD []) = v from rfl, hsearch]
  rfl

/-- Witness for C8 at `constSvc`, question `"hi"`, `top_k = 5`. -/
theorem search_contexts_zero_matches_witness :
    search_contexts constSvc zeroScore [] "hi" 5 = .ok ⟨[], []⟩ :=
  search_contexts_zero_matches constSvc zeroScore "hi" 5 zeroVec (by decide)
    (by decide) (by decide) (by decide)

/-- C9: a query invocation whose `top_k` lies outside `[1, 20]` fails with an
input-validation error; the outcome does not depend on the embedding service,
the score function or the stored points, so no search call reaches the
vector index. -/
theorem query_topk_validated (svc : EmbedService) (score : Score)
    (store : List QPoint) (question : String) (k : Int)
    (hk : k < 1 ∨ 20 < k) :
    (∃ e, ragent_query_pdf_ai svc score store question k = .error e)
    ∧ ∀ (svc2 : EmbedService) (score2 : Score) (store2 : List QPoint),
        ragent_query_pdf_ai svc2 score2 store2 question k =
          ragent_query_pdf_ai svc score store question k := by
  by_cases hb : isBlank question
  · constructor
    · exact ⟨_, by rw [ragent_query_pdf_ai, if_pos hb]⟩
    · intro svc2 score2 store2
      rw [ragent_query_pdf_ai, if_pos hb, ragent_query_pdf_ai, if_pos hb]
  · constructor
    · exact ⟨_, by rw [ragent_query_pdf_ai, if_neg hb, if_pos hk]⟩
    · intro svc2 score2 store2
      rw [ragent_query_pdf_ai, if_neg hb, if_pos hk,
        ragent_query_pdf_ai, if_neg hb, if_pos hk]

/-- Witness for C9 at `top_k = 0`. -/
theorem query_topk_validated_witness :
    ∃ e, ragent_query_pdf_ai constSvc zeroScore [] "q" 0 = .error e :=
  (query_topk_validated constSvc zeroScore [] "q" 0 (Or.inl (by norm_num))).1

end ClaimTheorems3

section IngestLemmas

lemma chunkIds_length (u5 : String → String) (sid : String) (n : Nat) :
    (chunkIds u5 sid n).length = n := by
  simp [chunkIds]

lemma getD_map_range {β : Type} (f : ℕ → β) (d : β) {i n : ℕ} (h : i < n) :
    ((List.range n).map f).getD i d = f i := by
  rw [List.getD_eq_getElem _ _ (by simp [h])]
  simp

lemma upsert_ok (s : QdrantStorage) (vectors : List Vec) (ids : List String)
    (payloads : List Payload) (hv : vectors ≠ []) (hi : ids ≠ [])
    (hp : payloads ≠ []) (hlen1 : vectors.length = ids.length)
    (hlen2 : vectors.length = payloads.length)
    (hdim : ∀ v ∈ vectors, v.length = s.dim) :
    s.upsert vectors ids payloads = .ok ⟨s.dim,
      clientUpsert s.points ((List.range ids.length).map (fun i =>
        QPoint.mk (ids.getD i "") (vectors.getD i [])
          (payloads.getD i ⟨"", ""⟩)))⟩ := by
  unfold QdrantStorage.upsert
  rw [if_neg (by simp [List.isEmpty_iff, hv, hi, hp])]
  rw [if_neg (by push_neg; exact ⟨hlen1, hlen2⟩)]
  rw [if_neg (by
    intro hc
    obtain ⟨v, hv2, hd⟩ := List.any_eq_true.mp hc
    exact absurd (hdim v hv2) (by simpa using hd))]

lemma ingestPoints_eq (u5 : String → String) (sid : String)
    {chunks : List String} {vs : List Vec} :
    (List.range (chunkIds u5 sid chunks.length).length).map (fun i =>
      QPoint.mk ((chunkIds u5 sid chunks.length).getD i "") (vs.getD i [])
        (((List.range chunks.length).map (fun i =>
          Payload.mk sid (chunks.getD i ""))).getD i ⟨"", ""⟩))
      = ingestPoints u5 sid chunks vs := by
  rw [chunkIds_length]
  unfold ingestPoints
  apply List.map_congr_left
  intro i hi
  have h : i < chunks.length := List.mem_range.mp hi
  rw [show (chunkIds u5 sid chunks.length).getD i "" =
      u5 (sid ++ ":" ++ toString i) from by
    rw [chunkIds]; exact getD_map_range _ _ h]
  rw [getD_map_range _ _ h]

lemma upsert_embeddings_run (u5 : String → String) (svc : EmbedService)
    (store : List QPoint) (chunks : List String) (sid : String) (vs : List Vec)
    (h : embed_texts svc chunks = .ok vs) (hlen : vs.length = chunks.length) :
    upsert_embeddings u5 svc store chunks sid =
      .ok (chunks.length,
        ⟨768, clientUpsert store (ingestPoints u5 sid chunks vs)⟩) := by
  have hchne : chunks ≠ [] := by
    intro he
    subst he
    rw [show embed_texts svc [] = .error "texts list cannot be empty" from
      rfl] at h
    exact absurd h (by simp)
  have hlen0 : chunks.length ≠ 0 := by
    simpa [List.length_eq_zero] using hchne
  have hvsne : vs ≠ [] := by
    intro he
    subst he
    simp at hlen
    exact hlen0 hlen.symm
  have hdims := (embed_texts_ok h).2
  rw [upsert_embeddings, if_neg (by simpa [List.isEmpty_iff] using hchne), h]
  show (if vs.isEmpty ∨ vs.length ≠ chunks.length then
      (Except.error "Embedding failed" : Except String (Nat × QdrantStorage))
    else
      match (QdrantStorage.mk 768 store).upsert vs
          (chunkIds u5 sid chunks.length)
          ((List.range chunks.length).map (fun i =>
            Payload.mk sid (chunks.getD i ""))) with
      | .error e => .error e
      | .ok s2 => .ok (chunks.length, s2)) =
    .ok (chunks.length,
      ⟨768, clientUpsert store (ingestPoints u5 sid chunks vs)⟩)
  rw [if_neg (by simp [List.isEmpty_iff, hvsne, hlen])]
  rw [upsert_ok (QdrantStorage.mk 768 store) vs
    (chunkIds u5 sid chunks.length)
    ((List.range chunks.length).map (fun i =>
      Payload.mk sid (chunks.getD i "")))
    hvsne
    (by
      intro he
      exact hlen0 (by rw [← chunkIds_length u5 sid chunks.length, he]; rfl))
    (by
      intro he
      apply hlen0
      have h2 := congrArg List.length he
      simpa using h2)
    (by rw [chunkIds_length, hlen])
    (by simp [hlen])
    (fun v hv => (hdims v hv).1)]
  rw [ingestPoints_eq]

end IngestLemmas

section ClaimTheorems4

set_option maxRecDepth 8000

/-- C1: when embedding succeeds with one vector per chunk,
`upsert_embeddings` returns `ingested = number of chunks` and upserts one
record per chunk whose id is the deterministic hash of
`"{source_id}:{chunk_index}"` (in index order); re-running the same
ingestion over the resulting store produces the same batch of ids again and
leaves the stored id list unchanged — records are overwritten, not
duplicated. -/
theorem upsert_embeddings_deterministic_ids (u5 : String → String)
    (svc : EmbedService) (store : List QPoint) (chunks : List String)
    (sid : String) (vs : List Vec)
    (h : embed_texts svc chunks = .ok vs) (hlen : vs.length = chunks.length) :
    upsert_embeddings u5 svc store chunks sid =
      .ok (chunks.length,
        ⟨768, clientUpsert store (ingestPoints u5 sid chunks vs)⟩)
    ∧ idsOf (ingestPoints u5 sid chunks vs) = chunkIds u5 sid chunks.length
    ∧ (ingestPoints u5 sid chunks vs).map (fun p => p.payload) =
        (List.range chunks.length).map (fun i =>
          Payload.mk sid (chunks.getD i ""))
    ∧ upsert_embeddings u5 svc
        (clientUpsert store (ingestPoints u5 sid chunks vs)) chunks sid =
      .ok (chunks.length,
        ⟨768, clientUpsert (clientUpsert store (ingestPoints u5 sid chunks vs))
          (ingestPoints u5 sid chunks vs)⟩)
    ∧ idsOf (clientUpsert (clientUpsert store (ingestPoints u5 sid chunks vs))
        (ingestPoints u5 sid chunks vs))
      = idsOf (clientUpsert store (ingestPoints u5 sid chunks vs)) := by
  refine ⟨upsert_embeddings_run u5 svc store chunks sid vs h hlen, ?_, ?_,
    upsert_embeddings_run u5 svc _ chunks sid vs h hlen, ?_⟩
  · rw [idsOf, ingestPoints, chunkIds, List.map_map]
    rfl
  · rw [ingestPoints, List.map_map]
    rfl
  · exact idsOf_clientUpsert_of_subset
      (fun p hp => batch_mem_idsOf_clientUpsert p hp)

/-- Witness for C1: the spec's scenario — a 3-chunk document with
`source_id = "doc-A"` yields `ingested = 3` and exactly the ids derived from
`"doc-A:0"`, `"doc-A:1"`, `"doc-A:2"` (with the hash modelled by the
identity function, the ids are the hashed names themselves). -/
theorem upsert_embeddings_deterministic_ids_witness :
    embed_texts constSvc ["a", "b", "c"] = .ok [zeroVec, zeroVec, zeroVec]
    ∧ upsert_embeddings (fun n => n) constSvc [] ["a", "b", "c"] "doc-A" =
      .ok (3, ⟨768, clientUpsert []
        (ingestPoints (fun n => n) "doc-A" ["a", "b", "c"]
          [zeroVec, zeroVec, zeroVec])⟩)
    ∧ idsOf (ingestPoints (fun n => n) "doc-A" ["a", "b", "c"]
        [zeroVec, zeroVec, zeroVec]) = ["doc-A:0", "doc-A:1", "doc-A:2"] := by
  have h : embed_texts constSvc ["a", "b", "c"] =
      .ok [zeroVec, zeroVec, zeroVec] := by decide
  have t := upsert_embeddings_deterministic_ids (fun n => n) constSvc []
    ["a", "b", "c"] "doc-A" [zeroVec, zeroVec, zeroVec] h (by decide)
  exact ⟨h, t.1, by rw [t.2.1]; decide⟩

end ClaimTheorems4

end RAGent
